import Mathlib

/-!
Verification of the Realm Orchestration subsystem of citadel-tools.

The definitions below are a shallow embedding of the Rust sources:
  - `src/libcitadel/src/realm/launcher.rs`  (RealmLauncher)
  - `src/libcitadel/src/realm/systemd.rs`   (Systemd)
  - `src/realmsd/src/dbus.rs`               (DbusServer / TreeData)

Parts of the repository that the sources reference but whose code is not
available (the `Realm` / `RealmConfig` data structures, the
`NetworkConfig` allocator of `realm/network.rs`, and the
`RealmManager`) are modelled from the specification; each such
definition carries a doc comment starting with "Modelled from the spec:".

External effects (process spawning, the filesystem) are modelled by a
`Host` record of oracles describing the host's state and the outcome of
each external command, plus an explicit list of attempted commands
returned alongside each result.
-/

set_option maxRecDepth 40000

namespace Citadel

/-- Decidable equality for Except values, used to evaluate concrete runs
of the embedded functions inside witnesses. -/
instance {ε α : Type} [DecidableEq ε] [DecidableEq α] : DecidableEq (Except ε α)
  | .error e, .error e2 =>
    if h : e = e2 then .isTrue (by rw [h])
    else .isFalse (by intro hc; cases hc; exact h rfl)
  | .error _, .ok _ => .isFalse (by intro hc; cases hc)
  | .ok _, .error _ => .isFalse (by intro hc; cases hc)
  | .ok a, .ok b =>
    if h : a = b then .isTrue (by rw [h])
    else .isFalse (by intro hc; cases hc; exact h rfl)

/-- Outcome of attempting to spawn an external command: either the spawn
itself fails (the error path of `Command::status()`), or the command runs
and exits with the given code. -/
inductive CmdOutcome where
  | spawnFailure
  | exited (code : Nat)
deriving DecidableEq, Repr

/-- Error taxonomy of the subsystem (the Rust code uses a single dynamic
`failure::Error`; the variants below record which `format_err!` / allocator
failure produced the error). -/
inductive Err where
  | zoneUnknown
  | poolExhausted
  | addressInUse
  | outOfRange
  | descriptorWriteFailed (path : String)
  | commandSpawnFailed (cmd : String)
  | canonicalizeFailed (path : String)
  | realmNotRunning (name : String)
deriving DecidableEq, Repr

/-- An external command attempted by the process-supervisor bridge.
`Cmd.systemctl op name` is `systemctl <op> <name>`; `Cmd.copyTo` is
`machinectl copy-to <machine> <src> <dst>`; `Cmd.bindMount` is
`machinectl --mkdir bind <machine> <src> <dst>`. -/
inductive Cmd where
  | systemctl (op name : String)
  | copyTo (machine src dst : String)
  | bindMount (machine src dst : String)
deriving DecidableEq, Repr

/-- Host-state oracle: which paths exist, what `fs::canonicalize` returns
(`none` models an IO error), whether writing a file at a path succeeds,
and the outcome of each external command that may be spawned. -/
structure Host where
  pathExists : String → Bool
  canonicalize : String → Option String
  writeOk : String → Bool
  systemctl : String → String → CmdOutcome
  copyTo : String → String → String → CmdOutcome
  bindCmd : String → String → String → CmdOutcome

/-- Modelled from the spec: the per-realm capability/feature configuration
(§3 Data Model, "Realm.config"). The concrete `RealmConfig` code is not
under `src/`; booleans, `network_zone`, optional `reserved_ip`, optional
`netns`, the two extra bind-mount lists and `ephemeral_persistent_dirs`
are exactly the fields the launcher and bridge read. Addresses are
modelled as natural numbers rendered with `toString`. -/
structure RealmConfig where
  kvm : Bool
  gpu : Bool
  gpu_card0 : Bool
  sound : Bool
  x11 : Bool
  wayland : Bool
  network : Bool
  ephemeralHome : Bool
  sharedDir : Bool
  readonlyRootfs : Bool
  networkZone : String
  reservedIp : Option Nat
  netns : Option String
  extraBindmounts : List String
  extraBindmountsRo : List String
  ephemeralPersistentDirs : List String
deriving DecidableEq, Repr

/-- RealmConfig::has_netns. -/
def RealmConfig.has_netns (c : RealmConfig) : Bool := c.netns.isSome

/-- Modelled from the spec: a realm is an identity (`name`), a
configuration, and a base directory on the host (`Realm::base_path_file`
resolves files under it). The concrete `Realm` code is not under `src/`. -/
structure Realm where
  name : String
  basePath : String
  config : RealmConfig
deriving DecidableEq, Repr

/-- Realm::base_path_file: path of a file directly under the realm's base
directory (PathBuf::join with a relative component). -/
def Realm.base_path_file (r : Realm) (file : String) : String :=
  r.basePath ++ "/" ++ file

/-- Realm::readonly_rootfs accessor (delegates to the config flag). -/
def Realm.readonly_rootfs (r : Realm) : Bool := r.config.readonlyRootfs

/-- Modelled from the spec: configuration of one network zone (§3
"NetworkZone allocation table"): a gateway address and the pool of
assignable addresses, listed in ascending order so that the first free
pool entry is the lowest free address. -/
structure ZoneConfig where
  gateway : Nat
  pool : List Nat
deriving DecidableEq, Repr

/-- Modelled from the spec: the `NetworkConfig` allocator state
(`realm/network.rs` is not under `src/`): the zone table plus the
current allocations, keyed by (zone name, realm name). -/
structure NetworkConfig where
  zones : List (String × ZoneConfig)
  allocations : List ((String × String) × Nat)
deriving DecidableEq, Repr

/-- Look up a zone's configuration by name. -/
def NetworkConfig.zoneOf (nc : NetworkConfig) (zone : String) : Option ZoneConfig :=
  match nc.zones.find? (fun z => z.1 == zone) with
  | some z => some z.2
  | none => none

/-- Find the address allocated to a (zone, realm) key, if any. -/
def findAlloc : List ((String × String) × Nat) → String × String → Option Nat
  | [], _ => none
  | (k, v) :: rest, key => if k = key then some v else findAlloc rest key

/-- Find which realm (if any) holds a given address in a given zone. -/
def holderOf : List ((String × String) × Nat) → String → Nat → Option String
  | [], _, _ => none
  | (k, v) :: rest, zone, addr =>
    if k.1 = zone ∧ v = addr then some k.2 else holderOf rest zone addr

/-- Whether an address is already in use in a zone. -/
def addrInUse (allocs : List ((String × String) × Nat)) (zone : String) (addr : Nat) : Bool :=
  (holderOf allocs zone addr).isSome

/-- Modelled from the spec: `allocate_address_for(zone, realm_name)`
(§4.1): fails with `ZoneUnknown` if the zone has no configured pool;
idempotently returns an existing allocation for the realm; otherwise
deterministically picks the lowest free pool address that is not the
gateway, failing with `PoolExhausted` when none remains. -/
def NetworkConfig.allocate_address_for (nc : NetworkConfig) (zone realmName : String) :
    Except Err (Nat × NetworkConfig) :=
  match nc.zoneOf zone with
  | none => .error .zoneUnknown
  | some zc =>
    match findAlloc nc.allocations (zone, realmName) with
    | some a => .ok (a, nc)
    | none =>
      match zc.pool.find? (fun a => !(a == zc.gateway) && !(addrInUse nc.allocations zone a)) with
      | none => .error .poolExhausted
      | some a => .ok (a, { nc with allocations := ((zone, realmName), a) :: nc.allocations })

/-- Modelled from the spec: `allocate_reserved(zone, realm_name, address)`
(§4.1): `ZoneUnknown` if the zone is unconfigured, `OutOfRange` if the
address is outside the zone's pool, `AddressInUse` if a different realm
holds it, idempotent success if the same realm holds it, otherwise claims
the address. -/
def NetworkConfig.allocate_reserved (nc : NetworkConfig) (zone realmName : String) (addr : Nat) :
    Except Err (Nat × NetworkConfig) :=
  match nc.zoneOf zone with
  | none => .error .zoneUnknown
  | some zc =>
    if addr ∈ zc.pool then
      match holderOf nc.allocations zone addr with
      | some r => if r = realmName then .ok (addr, nc) else .error .addressInUse
      | none => .ok (addr, { nc with allocations := ((zone, realmName), addr) :: nc.allocations })
    else .error .outOfRange

/-- Modelled from the spec: `gateway(zone)` (§4.1): the zone's gateway
address, `ZoneUnknown` if the zone is unconfigured. -/
def NetworkConfig.gateway (nc : NetworkConfig) (zone : String) : Except Err Nat :=
  match nc.zoneOf zone with
  | none => .error .zoneUnknown
  | some zc => .ok zc.gateway

/-- Modelled from the spec: `free_allocation_for(zone, realm_name)`
(§4.1): removes the realm's entry if present; no-op if absent. -/
def NetworkConfig.free_allocation_for (nc : NetworkConfig) (zone realmName : String) :
    NetworkConfig :=
  { nc with allocations := nc.allocations.filter (fun e => !(e.1 == (zone, realmName))) }

/-! ## RealmLauncher (src/libcitadel/src/realm/launcher.rs) -/

/-- RealmLauncher: the realm, its service unit name, and the probed
device list. -/
structure RealmLauncher where
  realm : Realm
  service : String
  devices : List String
deriving DecidableEq, Repr

/-- RealmLauncher::new: fresh launcher with service name
`realm-<name>.service` and an empty device list. -/
def RealmLauncher.new (realm : Realm) : RealmLauncher :=
  { realm := realm, service := "realm-" ++ realm.name ++ ".service", devices := [] }

/-- RealmLauncher::realm_service_name. -/
def RealmLauncher.realm_service_name (l : RealmLauncher) : String := l.service

/-- RealmLauncher::add_device: push the device path onto the device list
if (and only if) the device node exists on the host. -/
def RealmLauncher.add_device (l : RealmLauncher) (host : Host) (device : String) : RealmLauncher :=
  if host.pathExists device then { l with devices := l.devices ++ [device] } else l

/-- RealmLauncher::add_devices: probe `/dev/kvm` when `kvm` is granted,
`/dev/dri/renderD128` when `gpu` is granted, and additionally
`/dev/dri/card0` when both `gpu` and `gpu_card0` are granted. -/
def RealmLauncher.add_devices (l : RealmLauncher) (host : Host) : RealmLauncher :=
  let config := l.realm.config
  let l1 := if config.kvm then l.add_device host "/dev/kvm" else l
  if config.gpu then
    let l2 := l1.add_device host "/dev/dri/renderD128"
    if config.gpu_card0 then l2.add_device host "/dev/dri/card0" else l2
  else l1

/-- Render a list of descriptor lines the way repeated `writeln!` calls
build a string: each line followed by a newline. -/
def writeLines (lines : List String) : String :=
  String.join (lines.map (fun l => l ++ "\n"))

/-- Character membership in a string (String::contains with a `char`
pattern), phrased over the underlying character list so that it is
kernel-computable. -/
def containsChar (s : String) (c : Char) : Bool :=
  s.data.contains c

/-- RealmLauncher::is_valid_bind_item: a user-supplied bind-mount entry is
valid iff it contains no newline character. -/
def is_valid_bind_item (item : String) : Bool :=
  !(containsChar item '\n')

/-- One loop of generate_extra_bind_mounts: emit `pre ++ entry` for each
valid entry, in order, skipping entries that contain a newline. -/
def emitBinds (pre : String) (binds : List String) : List String :=
  binds.foldl (fun acc b => if is_valid_bind_item b then acc ++ [pre ++ b] else acc) []

/-- Lines of generate_extra_bind_mounts that precede the user-supplied
extra bind mounts: home directive (ephemeral temp filesystem XOR
persistent-home bind), shared-directory bind (only when granted and
`/realms/Shared` exists), one bind per probed device, and the sound /
X11 / Wayland socket binds. -/
def baseBindLines (l : RealmLauncher) (host : Host) : List String :=
  let config := l.realm.config
  (if config.ephemeralHome then
    ["TemporaryFileSystem=/home/user:mode=755,uid=1000,gid=1000"]
   else
    ["Bind=" ++ l.realm.base_path_file "home" ++ ":/home/user"])
  ++ (if config.sharedDir && host.pathExists "/realms/Shared" then
       ["Bind=/realms/Shared:/home/user/Shared"]
      else [])
  ++ l.devices.map (fun dev => "Bind=" ++ dev)
  ++ (if config.sound then ["BindReadOnly=/run/user/1000/pulse:/run/user/host/pulse"] else [])
  ++ (if config.x11 then ["BindReadOnly=/tmp/.X11-unix"] else [])
  ++ (if config.wayland then
       ["BindReadOnly=/run/user/1000/wayland-0:/run/user/host/wayland-0"]
      else [])

/-- RealmLauncher::generate_extra_bind_mounts, as the list of emitted
lines: the base lines, then the extra read-write binds, then the extra
read-only binds (`writeln!` never fails on a String, so this is total). -/
def generate_extra_bind_mounts_lines (l : RealmLauncher) (host : Host) : List String :=
  baseBindLines l host
  ++ emitBinds "Bind=" l.realm.config.extraBindmounts
  ++ emitBinds "BindReadOnly=" l.realm.config.extraBindmountsRo

/-- RealmLauncher::generate_extra_file_options, as lines. -/
def generate_extra_file_options_lines (l : RealmLauncher) : List String :=
  if l.realm.readonly_rootfs then ["ReadOnly=true", "Overlay=+/var::/var"] else []

/-- Address resolution inside RealmLauncher::generate_network_config:
the realm's address comes from `allocate_reserved` when a reserved IP is
configured and from `allocate_address_for` otherwise. -/
def resolve_address (config : RealmConfig) (name : String) (nc : NetworkConfig) :
    Except Err (Nat × NetworkConfig) :=
  match config.reservedIp with
  | some a => nc.allocate_reserved config.networkZone name a
  | none => nc.allocate_address_for config.networkZone name

/-- RealmLauncher::generate_network_config, as emitted lines plus the
updated allocator state. When `network` is set and no external netns is
configured, the realm's address is resolved through the allocator (see
`resolve_address`) and emitted as IFCONFIG environment pairs followed by
the managed zone directive; when `network` is unset, the
private-network directive is emitted; when a netns is configured (and
`network` is set) nothing is emitted. -/
def generate_network_config (l : RealmLauncher) (nc : NetworkConfig) :
    Except Err (List String × NetworkConfig) :=
  if l.realm.config.network then
    if l.realm.config.has_netns then .ok ([], nc)
    else
      match resolve_address l.realm.config l.realm.name nc with
      | .error e => .error e
      | .ok (addr, nc2) =>
        match nc2.gateway l.realm.config.networkZone with
        | .error e => .error e
        | .ok gw =>
          .ok (["Environment=IFCONFIG_IP=" ++ toString addr,
                "Environment=IFCONFIG_GW=" ++ toString gw,
                "[Network]",
                "Zone=clear"], nc2)
  else .ok (["[Network]", "Private=true"], nc)

/-- NSPAWN_FILE_TEMPLATE with its three placeholder lines substituted
(the source substitutes textually with String::replace; each placeholder
occurs exactly once, alone on its line, so substitution is this
concatenation provided the substituted texts do not themselves contain a
placeholder token). -/
def nspawn_template_fill (netText bindsText optsText : String) : String :=
  "[Exec]\nBoot=true\n" ++ netText
  ++ "\n\n[Files]\nBindReadOnly=/opt/share\nBindReadOnly=/storage/citadel-state/resolv.conf:/etc/resolv.conf\n\n"
  ++ bindsText ++ "\n\n" ++ optsText ++ "\n\n"

/-- RealmLauncher::generate_nspawn_file: fill the container-descriptor
template from the three generators; only network-config generation (the
allocator) can fail. -/
def generate_nspawn_file (l : RealmLauncher) (host : Host) (nc : NetworkConfig) :
    Except Err (String × NetworkConfig) :=
  match generate_network_config l nc with
  | .error e => .error e
  | .ok (netLines, nc2) =>
    .ok (nspawn_template_fill (writeLines netLines)
          (writeLines (generate_extra_bind_mounts_lines l host))
          (writeLines (generate_extra_file_options_lines l)), nc2)

/-- The netns argument of the service descriptor's ExecStart line:
`--network-namespace-path=/run/netns/<netns>` when a netns is
configured, the empty string otherwise. -/
def netns_arg (config : RealmConfig) : String :=
  match config.netns with
  | some netns => "--network-namespace-path=/run/netns/" ++ netns
  | none => ""

/-- The DeviceAllow lines of the service descriptor: one per probed
device. -/
def device_allow_lines (l : RealmLauncher) : List String :=
  l.devices.map (fun dev => "DeviceAllow=" ++ dev)

/-- REALM_SERVICE_TEMPLATE with its placeholders substituted (the source
substitutes textually with String::replace; `$REALM_NAME` occurs twice
and is replaced at both occurrences). -/
def service_template_fill (name rootfs netnsText deviceAllowText : String) : String :=
  "[Unit]\nDescription=Application Image " ++ name ++ " instance\n\n[Service]\n\nDevicePolicy=closed\n"
  ++ deviceAllowText
  ++ "\n\nEnvironment=SYSTEMD_NSPAWN_SHARE_NS_IPC=1\nExecStart=/usr/bin/systemd-nspawn --quiet --notify-ready=yes --keep-unit "
  ++ netnsText ++ " --machine=" ++ name ++ " --link-journal=auto --directory=" ++ rootfs
  ++ "\n\nKillMode=mixed\nType=notify\nRestartForceExitStatus=133\nSuccessExitStatus=133\n"

/-- RealmLauncher::generate_service_file. -/
def generate_service_file (l : RealmLauncher) (rootfs : String) : String :=
  service_template_fill l.realm.name rootfs (netns_arg l.realm.config)
    (writeLines (device_allow_lines l))

/-- RealmLauncher::realm_nspawn_path: `/run/systemd/nspawn/<name>.nspawn`. -/
def realm_nspawn_path (l : RealmLauncher) : String :=
  "/run/systemd/nspawn/" ++ l.realm.name ++ ".nspawn"

/-- RealmLauncher::realm_service_path: `/run/systemd/system/<service>`. -/
def realm_service_path (l : RealmLauncher) : String :=
  "/run/systemd/system/" ++ l.realm_service_name

/-- RealmLauncher::write_launch_config_file: writing the content at the
path either succeeds or fails with a descriptor-write error (directory
creation and `fs::write` are abstracted by the host's `writeOk` oracle). -/
def write_launch_config_file (host : Host) (path : String) : Except Err Unit :=
  if host.writeOk path then .ok () else .error (.descriptorWriteFailed path)

/-- The device-probe step at the top of write_launch_config_files: probe
devices only when the stored device list is empty. -/
def probeDevices (l : RealmLauncher) (host : Host) : RealmLauncher :=
  if l.devices.isEmpty then l.add_devices host else l

/-- RealmLauncher::write_launch_config_files: probe devices if the list
is empty, generate the container descriptor (allocating network
addresses), write it, generate the service descriptor, write it. Returns
the launcher state, both descriptor texts (the bytes written) and the
updated allocator state. -/
def write_launch_config_files (host : Host) (l : RealmLauncher) (rootfs : String)
    (nc : NetworkConfig) : Except Err (RealmLauncher × String × String × NetworkConfig) :=
  let l2 := probeDevices l host
  match generate_nspawn_file l2 host nc with
  | .error e => .error e
  | .ok (nspawnContent, nc2) =>
    match write_launch_config_file host (realm_nspawn_path l2) with
    | .error e => .error e
    | .ok _ =>
      let serviceContent := generate_service_file l2 rootfs
      match write_launch_config_file host (realm_service_path l2) with
      | .error e => .error e
      | .ok _ => .ok (l2, nspawnContent, serviceContent, nc2)

/-! ## Systemd (src/libcitadel/src/realm/systemd.rs) -/

/-- Systemd::run_systemctl: spawn `systemctl <op> <name>`; a spawn
failure is mapped to an error, while a completed command yields
`Ok(status.success())`, i.e. `ok true` for exit code 0 and `ok false`
for any non-zero exit code. -/
def run_systemctl (host : Host) (op name : String) : Except Err Bool :=
  match host.systemctl op name with
  | .spawnFailure => .error (.commandSpawnFailed "systemctl")
  | .exited code => .ok (code == 0)

/-- Systemd::machinectl_copy_to: spawn
`machinectl copy-to <machine> <src> <dst>`; only a spawn failure is an
error — the command's exit status is discarded and `Ok(())` is returned
whether or not the copy succeeded. -/
def machinectl_copy_to (host : Host) (machine src dst : String) : Except Err Unit :=
  match host.copyTo machine src dst with
  | .spawnFailure => .error (.commandSpawnFailed "machinectl copy-to")
  | .exited _ => .ok ()

/-- Systemd::machinectl_bind: spawn
`machinectl --mkdir bind <machine> <src> <dst>`; like copy-to, only a
spawn failure is an error and the exit status is discarded. -/
def machinectl_bind (host : Host) (machine src dst : String) : Except Err Unit :=
  match host.bindCmd machine src dst with
  | .spawnFailure => .error (.commandSpawnFailed "machinectl bind")
  | .exited _ => .ok ()

/-- Sequence two effectful steps, accumulating the attempted external
commands; an error in the first step short-circuits the second. -/
def andThen {α β : Type} (x : Except Err α × List Cmd)
    (f : α → Except Err β × List Cmd) : Except Err β × List Cmd :=
  match x with
  | (.error e, cmds) => (.error e, cmds)
  | (.ok a, cmds) =>
    let next := f a
    (next.1, cmds ++ next.2)

/-- Split a path into its components at the separator. -/
def splitComponents : List Char → List Char → List String
  | [], acc => [String.mk acc.reverse]
  | c :: rest, acc =>
    if c = '/' then String.mk acc.reverse :: splitComponents rest []
    else splitComponents rest (c :: acc)

/-- Component list of a path string. -/
def pathComponents (p : String) : List String :=
  splitComponents p.data []

/-- Path::starts_with: component-wise path-prefix test. -/
def path_starts_with (base p : String) : Bool :=
  (pathComponents base).isPrefixOf (pathComponents p)

/-- The per-directory loop at the end of Systemd::setup_ephemeral_home:
for each configured persistent dir whose source under the realm's
persistent home exists, canonicalize it (an IO error propagates), and if
the canonical path is still under the home directory and exists,
bind-mount it into the running realm (a spawn failure propagates). -/
def bind_persistent_dirs (host : Host) (realm : Realm) (home : String) :
    List String → Except Err Unit × List Cmd
  | [] => (.ok (), [])
  | dir :: rest =>
    let src := home ++ "/" ++ dir
    if host.pathExists src then
      match host.canonicalize src with
      | none => (.error (.canonicalizeFailed src), [])
      | some srcCanon =>
        if path_starts_with home srcCanon && host.pathExists srcCanon then
          let dst := "/home/user/" ++ dir
          andThen (machinectl_bind host realm.name srcCanon dst,
                   [Cmd.bindMount realm.name srcCanon dst])
            (fun _ => bind_persistent_dirs host realm home rest)
        else bind_persistent_dirs host realm home rest
    else bind_persistent_dirs host realm home rest

/-- Systemd::setup_ephemeral_home: copy the global skeleton if present,
then the per-realm skeleton if present, then bind-mount the configured
persistent dirs (skipping everything after the copies when the realm has
no persistent home directory). Every step propagates its error with `?`. -/
def setup_ephemeral_home (host : Host) (realm : Realm) : Except Err Unit × List Cmd :=
  let step1 : Except Err Unit × List Cmd :=
    if host.pathExists "/realms/skel" then
      (machinectl_copy_to host realm.name "/realms/skel" "/home/user",
       [Cmd.copyTo realm.name "/realms/skel" "/home/user"])
    else (.ok (), [])
  andThen step1 (fun _ =>
    let realmSkel := realm.base_path_file "skel"
    let step2 : Except Err Unit × List Cmd :=
      if host.pathExists realmSkel then
        (machinectl_copy_to host realm.name realmSkel "/home/user",
         [Cmd.copyTo realm.name realmSkel "/home/user"])
      else (.ok (), [])
    andThen step2 (fun _ =>
      let home := realm.base_path_file "home"
      if !host.pathExists home then (.ok (), [])
      else bind_persistent_dirs host realm home realm.config.ephemeralPersistentDirs))

/-- Systemd::start_realm: write the launch configuration (allocating the
network address) — an error here aborts before any command is spawned;
then `systemctl start` the realm's service — the returned success
boolean is discarded by `?`, only a spawn failure aborts; then, when the
realm has an ephemeral home, run setup_ephemeral_home, whose error (if
any) is propagated by `?` as the result of start_realm. The second
component lists the external commands attempted, in order. -/
def start_realm (host : Host) (nc : NetworkConfig) (realm : Realm) (rootfs : String) :
    Except Err Unit × List Cmd :=
  match write_launch_config_files host (RealmLauncher.new realm) rootfs nc with
  | .error e => (.error e, [])
  | .ok (l, _, _, _) =>
    let svc := l.realm_service_name
    andThen (Except.map (fun _ => ()) (run_systemctl host "start" svc),
             [Cmd.systemctl "start" svc])
      (fun _ =>
        if realm.config.ephemeralHome then setup_ephemeral_home host realm
        else (.ok (), []))

/-! ## DbusServer / TreeData (src/realmsd/src/dbus.rs) -/

/-- A dbus method error (MethodErr); `TreeData::realm_by_name` fails with
message `Cannot find realm <name>`. -/
structure MethodErr where
  message : String
deriving DecidableEq, Repr

/-- Reply payload of a dbus method: the plain empty method return, or a
single string argument appended to it. -/
inductive Reply where
  | empty
  | str (s : String)
deriving DecidableEq, Repr

/-- Modelled from the spec: the RealmManager state visible to the dbus
layer (the RealmManager code is not under `src/`): the realm collection,
the set of names the supervisor reports active, and the current realm's
name if any. -/
structure ManagerState where
  realms : List Realm
  activeNames : List String
  current : Option String
deriving Repr

/-- Modelled from the spec: RealmManager::realm_by_name — look the realm
up in the manager's collection, `none` when no realm has that name. -/
def manager_realm_by_name (st : ManagerState) (name : String) : Option Realm :=
  st.realms.find? (fun r => r.name == name)

/-- TreeData::realm_by_name: wrap the manager lookup, turning a missing
realm into the `Cannot find realm <name>` method error. -/
def treedata_realm_by_name (st : ManagerState) (name : String) : Except MethodErr Realm :=
  match manager_realm_by_name st name with
  | some realm => .ok realm
  | none => .error { message := "Cannot find realm " ++ name }

/-- Modelled from the spec: RealmManager::set_current_realm — only
meaningful on a running realm; reassigns the current pointer, and fails
(the dbus layer merely logs this) when the realm is not active. -/
def set_current_realm (st : ManagerState) (realm : Realm) : Except Err ManagerState :=
  if st.activeNames.contains realm.name then .ok { st with current := some realm.name }
  else .error (.realmNotRunning realm.name)

/-- DbusServer::do_set_current: look the name up; when unknown, skip
silently; when known, attempt set_current_realm and log (ignore) its
error. The method always returns the plain empty reply. -/
def do_set_current (st : ManagerState) (name : String) : Reply × ManagerState :=
  match manager_realm_by_name st name with
  | none => (Reply.empty, st)
  | some realm =>
    match set_current_realm st realm with
    | .ok st2 => (Reply.empty, st2)
    | .error _ => (Reply.empty, st)

/-- DbusServer::do_get_current: the current realm's name, or the empty
string when none is current. -/
def do_get_current (st : ManagerState) : Reply :=
  match st.current with
  | some name => Reply.str name
  | none => Reply.str ""

/-- DbusServer::do_start: resolve the realm (a missing realm is a method
error returned to the caller); the actual start runs on a spawned thread
and is not part of the synchronous reply, which is empty. -/
def do_start (st : ManagerState) (name : String) : Except MethodErr Reply :=
  match treedata_realm_by_name st name with
  | .error e => .error e
  | .ok _ => .ok Reply.empty

/-- DbusServer::do_stop: same synchronous shape as do_start. -/
def do_stop (st : ManagerState) (name : String) : Except MethodErr Reply :=
  match treedata_realm_by_name st name with
  | .error e => .error e
  | .ok _ => .ok Reply.empty

/-- DbusServer::do_terminal: same synchronous shape as do_start (the
implicit start and terminal launch run on a spawned thread). -/
def do_terminal (st : ManagerState) (name : String) : Except MethodErr Reply :=
  match treedata_realm_by_name st name with
  | .error e => .error e
  | .ok _ => .ok Reply.empty

/-- DbusServer::do_run: reads name and args; same synchronous shape as
do_start (the implicit start and the in-realm run happen on a spawned
thread). -/
def do_run (st : ManagerState) (name : String) (args : List String) : Except MethodErr Reply :=
  match treedata_realm_by_name st name with
  | .error e => .error e
  | .ok _ =>
    let _ := args
    .ok Reply.empty

/-! ## Auxiliary views used by the theorems -/

/-- The error component of an Except value. -/
def errOf {α : Type} : Except Err α → Option Err
  | .error e => some e
  | .ok _ => none

/-- Whether an Except value is a success. -/
def isOkE {α : Type} : Except Err α → Bool
  | .ok _ => true
  | .error _ => false

/-- Device grant predicate, following the spec's words for claim C5: the
config grants `/dev/kvm` via `kvm`, the gpu render node via `gpu`, and
the gpu card node via `gpu` together with `gpu_card0`. -/
def spec_device_granted (config : RealmConfig) (dev : String) : Prop :=
  (dev = "/dev/kvm" ∧ config.kvm = true)
  ∨ (dev = "/dev/dri/renderD128" ∧ config.gpu = true)
  ∨ (dev = "/dev/dri/card0" ∧ config.gpu = true ∧ config.gpu_card0 = true)

instance (config : RealmConfig) (dev : String) : Decidable (spec_device_granted config dev) := by
  unfold spec_device_granted
  infer_instance

/-! ## Concrete fixtures used by witnesses and counterexamples -/

/-- Empty allocator: no zones, no allocations. -/
def ncE : NetworkConfig := ⟨[], []⟩

/-- Allocator with one zone `z` (gateway 1, pool [1, 2]) and no
allocations. -/
def ncZ : NetworkConfig := ⟨[("z", ⟨1, [1, 2]⟩)], []⟩

/-- The allocator state after realm `c` allocates in zone `z`: address 2
(the lowest pool address distinct from the gateway). -/
def ncZ1 : NetworkConfig := ⟨[("z", ⟨1, [1, 2]⟩)], [(("z", "c"), 2)]⟩

/-- A configuration with every capability off and no extras. -/
def baseConfig : RealmConfig :=
  { kvm := false, gpu := false, gpu_card0 := false, sound := false, x11 := false,
    wayland := false, network := false, ephemeralHome := false, sharedDir := false,
    readonlyRootfs := false, networkZone := "z", reservedIp := none, netns := none,
    extraBindmounts := [], extraBindmountsRo := [], ephemeralPersistentDirs := [] }

/-- Realm `a` with an ephemeral home (used for claim C1). -/
def realmE : Realm := ⟨"a", "/realms/realm-a", { baseConfig with ephemeralHome := true }⟩

/-- Realm `b` with no network and no ephemeral home (used for claim C2). -/
def realmC2 : Realm := ⟨"b", "/realms/realm-b", baseConfig⟩

/-- Realm `d` with networking in zone `z` (used for claim C3). -/
def realmC3 : Realm := ⟨"d", "/realms/realm-d", { baseConfig with network := true }⟩

/-- Realm `f` granted kvm and gpu (used for claim C5). -/
def realmC5 : Realm := ⟨"f", "/realms/realm-f", { baseConfig with kvm := true, gpu := true }⟩

/-- Realm `c` with networking in zone `z` (used for claim C7). -/
def realmC7 : Realm := ⟨"c", "/realms/realm-c", { baseConfig with network := true }⟩

/-- Realm `e` granted kvm, no network (used for claim C8). -/
def realmC8 : Realm := ⟨"e", "/realms/realm-e", { baseConfig with kvm := true }⟩

/-- A host where nothing exists, canonicalize fails, every file write
succeeds and every command exits 0. -/
def quietHost : Host :=
  { pathExists := fun _ => false, canonicalize := fun _ => none, writeOk := fun _ => true,
    systemctl := fun _ _ => .exited 0, copyTo := fun _ _ _ => .exited 0,
    bindCmd := fun _ _ _ => .exited 0 }

/-- Host where only `/realms/skel` exists and spawning machinectl
copy-to fails (used for claim C1). -/
def hostE : Host :=
  { quietHost with pathExists := fun p => p == "/realms/skel", copyTo := fun _ _ _ => .spawnFailure }

/-- Host where every systemctl invocation exits with code 1 (used for
claim C2). -/
def hostC2 : Host := { quietHost with systemctl := fun _ _ => .exited 1 }

/-- Host where only `/dev/kvm` exists (used for claims C5 and C8). -/
def hostA : Host := { quietHost with pathExists := fun p => p == "/dev/kvm" }

/-- Host where the copy command always exits with code 7 (used for
claim C10). -/
def hostC10 : Host := { quietHost with copyTo := fun _ _ _ => .exited 7 }

/-- The empty manager state (used for claim C9). -/
def stEmpty : ManagerState := ⟨[], [], none⟩

/-- Realm `g` with one clean and one newline-carrying extra bind-mount
entry (used for claim C6). -/
def realmC6 : Realm :=
  ⟨"g", "/realms/realm-g",
   { baseConfig with extraBindmounts := ["/opt/x:/opt/x", "bad\nentry"],
                     extraBindmountsRo := ["/opt/ro"] }⟩

/-- Container descriptor generated for `realmC7` with allocator `ncZ`
(address 2, gateway 1 in zone `z`). -/
def nsC7 : String :=
  "[Exec]\nBoot=true\nEnvironment=IFCONFIG_IP=2\nEnvironment=IFCONFIG_GW=1\n[Network]\nZone=clear\n\n\n[Files]\nBindReadOnly=/opt/share\nBindReadOnly=/storage/citadel-state/resolv.conf:/etc/resolv.conf\n\nBind=/realms/realm-c/home:/home/user\n\n\n\n\n"

/-- Service descriptor generated for `realmC7`. -/
def svC7 : String :=
  "[Unit]\nDescription=Application Image c instance\n\n[Service]\n\nDevicePolicy=closed\n\n\nEnvironment=SYSTEMD_NSPAWN_SHARE_NS_IPC=1\nExecStart=/usr/bin/systemd-nspawn --quiet --notify-ready=yes --keep-unit  --machine=c --link-journal=auto --directory=/r\n\nKillMode=mixed\nType=notify\nRestartForceExitStatus=133\nSuccessExitStatus=133\n"

/-- The launcher state left after a first launch-config generation for
`realmC8` on `hostA` (the kvm device was found and retained). -/
def lAfter : RealmLauncher := ⟨realmC8, "realm-e.service", ["/dev/kvm"]⟩

/-- Container descriptor for `realmC8` while the device list holds
`/dev/kvm`. -/
def nsStale : String :=
  "[Exec]\nBoot=true\n[Network]\nPrivate=true\n\n\n[Files]\nBindReadOnly=/opt/share\nBindReadOnly=/storage/citadel-state/resolv.conf:/etc/resolv.conf\n\nBind=/realms/realm-e/home:/home/user\nBind=/dev/kvm\n\n\n\n\n"

/-- Service descriptor for `realmC8` while the device list holds
`/dev/kvm`. -/
def svStale : String :=
  "[Unit]\nDescription=Application Image e instance\n\n[Service]\n\nDevicePolicy=closed\nDeviceAllow=/dev/kvm\n\n\nEnvironment=SYSTEMD_NSPAWN_SHARE_NS_IPC=1\nExecStart=/usr/bin/systemd-nspawn --quiet --notify-ready=yes --keep-unit  --machine=e --link-journal=auto --directory=/r\n\nKillMode=mixed\nType=notify\nRestartForceExitStatus=133\nSuccessExitStatus=133\n"

/-- Container descriptor for `realmC8` generated from a fresh builder on
a host without `/dev/kvm`. -/
def nsFresh : String :=
  "[Exec]\nBoot=true\n[Network]\nPrivate=true\n\n\n[Files]\nBindReadOnly=/opt/share\nBindReadOnly=/storage/citadel-state/resolv.conf:/etc/resolv.conf\n\nBind=/realms/realm-e/home:/home/user\n\n\n\n\n"

/-- Service descriptor for `realmC8` generated from a fresh builder on a
host without `/dev/kvm`. -/
def svFresh : String :=
  "[Unit]\nDescription=Application Image e instance\n\n[Service]\n\nDevicePolicy=closed\n\n\nEnvironment=SYSTEMD_NSPAWN_SHARE_NS_IPC=1\nExecStart=/usr/bin/systemd-nspawn --quiet --notify-ready=yes --keep-unit  --machine=e --link-journal=auto --directory=/r\n\nKillMode=mixed\nType=notify\nRestartForceExitStatus=133\nSuccessExitStatus=133\n"

/-! ## Helper lemmas -/

lemma string_data_mk (l : List Char) : (String.mk l).data = l := rfl

lemma string_append_left_cancel {p a b : String} (h : p ++ a = p ++ b) : a = b := by
  cases p with
  | mk dp =>
    cases a with
    | mk da =>
      cases b with
      | mk db =>
        have hd : dp ++ da = dp ++ db := congrArg String.data h
        have : da = db := List.append_cancel_left hd
        rw [this]

lemma add_device_realm (l : RealmLauncher) (h : Host) (d : String) :
    (l.add_device h d).realm = l.realm := by
  unfold RealmLauncher.add_device
  split <;> rfl

lemma add_device_service (l : RealmLauncher) (h : Host) (d : String) :
    (l.add_device h d).service = l.service := by
  unfold RealmLauncher.add_device
  split <;> rfl

lemma add_devices_realm (l : RealmLauncher) (h : Host) :
    (l.add_devices h).realm = l.realm := by
  simp only [RealmLauncher.add_devices]
  split_ifs <;> simp [add_device_realm]

lemma add_devices_service (l : RealmLauncher) (h : Host) :
    (l.add_devices h).service = l.service := by
  simp only [RealmLauncher.add_devices]
  split_ifs <;> simp [add_device_service]

lemma probeDevices_realm (l : RealmLauncher) (h : Host) :
    (probeDevices l h).realm = l.realm := by
  unfold probeDevices
  split
  · exact add_devices_realm l h
  · rfl

lemma probeDevices_service (l : RealmLauncher) (h : Host) :
    (probeDevices l h).service = l.service := by
  unfold probeDevices
  split
  · exact add_devices_service l h
  · rfl

lemma new_service (realm : Realm) :
    (RealmLauncher.new realm).service = "realm-" ++ realm.name ++ ".service" := rfl

lemma write_ok_launcher {host : Host} {l : RealmLauncher} {rootfs : String}
    {nc : NetworkConfig} {l2 : RealmLauncher} {ns sv : String} {nc2 : NetworkConfig}
    (h : write_launch_config_files host l rootfs nc = .ok (l2, ns, sv, nc2)) :
    l2 = probeDevices l host := by
  simp only [write_launch_config_files] at h
  split at h
  · exact absurd h (by simp)
  · split at h
    · exact absurd h (by simp)
    · split at h
      · exact absurd h (by simp)
      · injection h with h2
        injection h2 with h3
        exact h3.symm

lemma zoneOf_set_allocations (nc : NetworkConfig) (allocs : List ((String × String) × Nat))
    (z : String) : ({ nc with allocations := allocs } : NetworkConfig).zoneOf z = nc.zoneOf z := rfl

lemma allocate_address_idem {nc : NetworkConfig} {z r : String} {a : Nat} {nc2 : NetworkConfig}
    (h : nc.allocate_address_for z r = .ok (a, nc2)) :
    nc2.allocate_address_for z r = .ok (a, nc2) := by
  unfold NetworkConfig.allocate_address_for at h
  split at h
  · exact absurd h (by simp)
  next zc hz =>
    split at h
    next a0 hf =>
      injection h with hpair
      injection hpair with ha hnc
      subst ha
      subst hnc
      simp [NetworkConfig.allocate_address_for, hz, hf]
    next hf =>
      split at h
      · exact absurd h (by simp)
      next a1 hfind =>
        injection h with hpair
        injection hpair with ha hnc
        subst ha
        subst hnc
        have h1 : ({ nc with allocations := ((z, r), a1) :: nc.allocations } :
            NetworkConfig).zoneOf z = some zc := hz
        have h2 : findAlloc (((z, r), a1) :: nc.allocations) (z, r) = some a1 := by
          simp [findAlloc]
        simp [NetworkConfig.allocate_address_for, h1, h2]

lemma allocate_reserved_idem {nc : NetworkConfig} {z r : String} {addr a : Nat}
    {nc2 : NetworkConfig} (h : nc.allocate_reserved z r addr = .ok (a, nc2)) :
    nc2.allocate_reserved z r addr = .ok (a, nc2) := by
  unfold NetworkConfig.allocate_reserved at h
  split at h
  · exact absurd h (by simp)
  next zc hz =>
    split at h
    · split at h
      next r0 hh =>
        split at h
        next hr =>
          injection h with hpair
          injection hpair with ha hnc
          subst ha
          subst hnc
          subst hr
          simp_all [NetworkConfig.allocate_reserved, hz, hh]
        · exact absurd h (by simp)
      next hh =>
        injection h with hpair
        injection hpair with ha hnc
        subst ha
        subst hnc
        have h1 : ({ nc with allocations := ((z, r), addr) :: nc.allocations } :
            NetworkConfig).zoneOf z = some zc := hz
        have h2 : holderOf (((z, r), addr) :: nc.allocations) z addr = some r := by
          simp [holderOf]
        simp_all [NetworkConfig.allocate_reserved, h1, h2]
    · exact absurd h (by simp)

lemma resolve_address_idem {config : RealmConfig} {name : String} {nc : NetworkConfig}
    {a : Nat} {nc2 : NetworkConfig} (h : resolve_address config name nc = .ok (a, nc2)) :
    resolve_address config name nc2 = .ok (a, nc2) := by
  unfold resolve_address at h ⊢
  cases hres : config.reservedIp with
  | some addr =>
    rw [hres] at h
    exact allocate_reserved_idem h
  | none =>
    rw [hres] at h
    exact allocate_address_idem h

lemma gen_net_idem {l : RealmLauncher} {nc : NetworkConfig} {lines : List String}
    {nc2 : NetworkConfig} (h : generate_network_config l nc = .ok (lines, nc2)) :
    generate_network_config l nc2 = .ok (lines, nc2) := by
  unfold generate_network_config at h ⊢
  split at h
  · split at h
    · injection h with hpair
      injection hpair with hl hnc
      subst hl
      subst hnc
      simp_all
    · split at h
      · exact absurd h (by simp)
      next addr ncm hres =>
        split at h
        · exact absurd h (by simp)
        next gw hgw =>
          injection h with hpair
          injection hpair with hl hnc
          subst hl
          subst hnc
          simp_all [resolve_address_idem hres]
  · injection h with hpair
    injection hpair with hl hnc
    subst hl
    subst hnc
    simp_all

lemma nspawn_idem {l : RealmLauncher} {host : Host} {nc : NetworkConfig} {s : String}
    {nc2 : NetworkConfig} (h : generate_nspawn_file l host nc = .ok (s, nc2)) :
    generate_nspawn_file l host nc2 = .ok (s, nc2) := by
  unfold generate_nspawn_file at h ⊢
  cases hg : generate_network_config l nc with
  | error e => rw [hg] at h; exact absurd h (by simp)
  | ok pair =>
    obtain ⟨lines, ncm⟩ := pair
    rw [hg] at h
    injection h with hpair
    injection hpair with hs hnc
    subst hs
    subst hnc
    rw [gen_net_idem hg]

lemma emitBinds_foldl (pre : String) (binds : List String) (acc : List String) :
    binds.foldl (fun a b => if is_valid_bind_item b then a ++ [pre ++ b] else a) acc
      = acc ++ (binds.filter is_valid_bind_item).map (fun b => pre ++ b) := by
  induction binds generalizing acc with
  | nil => simp
  | cons b t ih =>
    simp only [List.foldl_cons, List.filter_cons]
    cases hb : is_valid_bind_item b
    · simp only [hb, Bool.false_eq_true, if_false]
      rw [ih]
    · simp only [hb, if_true]
      rw [ih]
      simp

lemma emitBinds_eq (pre : String) (binds : List String) :
    emitBinds pre binds = (binds.filter is_valid_bind_item).map (fun b => pre ++ b) := by
  unfold emitBinds
  simpa using emitBinds_foldl pre binds []

lemma mem_add_device (l : RealmLauncher) (h : Host) (d x : String) :
    x ∈ (l.add_device h d).devices ↔ x ∈ l.devices ∨ (h.pathExists d = true ∧ x = d) := by
  unfold RealmLauncher.add_device
  by_cases hp : h.pathExists d
  · simp [hp]
  · simp [hp]

lemma add_devices_new_devices (realm : Realm) (host : Host) :
    ((RealmLauncher.new realm).add_devices host).devices =
      (if realm.config.kvm = true ∧ host.pathExists "/dev/kvm" = true then ["/dev/kvm"] else [])
      ++ (if realm.config.gpu = true ∧ host.pathExists "/dev/dri/renderD128" = true then
            ["/dev/dri/renderD128"] else [])
      ++ (if realm.config.gpu = true ∧ realm.config.gpu_card0 = true
            ∧ host.pathExists "/dev/dri/card0" = true then ["/dev/dri/card0"] else []) := by
  simp only [RealmLauncher.add_devices, RealmLauncher.add_device, RealmLauncher.new]
  by_cases hk : realm.config.kvm <;> by_cases hg : realm.config.gpu <;>
    by_cases hc : realm.config.gpu_card0 <;>
      by_cases p1 : host.pathExists "/dev/kvm" <;>
        by_cases p2 : host.pathExists "/dev/dri/renderD128" <;>
          by_cases p3 : host.pathExists "/dev/dri/card0" <;>
            simp [hk, hg, hc, p1, p2, p3]

lemma mem_add_devices_new (realm : Realm) (host : Host) (x : String) :
    x ∈ ((RealmLauncher.new realm).add_devices host).devices ↔
      (spec_device_granted realm.config x ∧ host.pathExists x = true) := by
  rw [add_devices_new_devices]
  simp only [List.mem_append]
  constructor
  · intro hx
    rcases hx with (hx | hx) | hx
    · split_ifs at hx with hcond
      · simp only [List.mem_singleton] at hx
        subst hx
        exact ⟨Or.inl ⟨rfl, hcond.1⟩, hcond.2⟩
      · simp at hx
    · split_ifs at hx with hcond
      · simp only [List.mem_singleton] at hx
        subst hx
        exact ⟨Or.inr (Or.inl ⟨rfl, hcond.1⟩), hcond.2⟩
      · simp at hx
    · split_ifs at hx with hcond
      · simp only [List.mem_singleton] at hx
        subst hx
        exact ⟨Or.inr (Or.inr ⟨rfl, hcond.1, hcond.2.1⟩), hcond.2.2⟩
      · simp at hx
  · rintro ⟨hgrant, hex⟩
    rcases hgrant with ⟨hx, hk⟩ | ⟨hx, hg⟩ | ⟨hx, hg, hc⟩
    · subst hx
      refine Or.inl (Or.inl ?_)
      rw [if_pos ⟨hk, hex⟩]
      simp
    · subst hx
      refine Or.inl (Or.inr ?_)
      rw [if_pos ⟨hg, hex⟩]
      simp
    · subst hx
      refine Or.inr ?_
      rw [if_pos ⟨hg, hc, hex⟩]
      simp

lemma mem_map_prefix (pre x : String) (l : List String) :
    (pre ++ x) ∈ l.map (fun d => pre ++ d) ↔ x ∈ l := by
  simp only [List.mem_map]
  constructor
  · rintro ⟨d, hd, he⟩
    have hdx : d = x := string_append_left_cancel he
    subst hdx
    exact hd
  · intro hx
    exact ⟨x, hx, rfl⟩

/-! ## Claim theorems -/

/-- Claim C10 (confirmed): machinectl_copy_to returns success exactly
when the copy command could be spawned, regardless of the command's exit
status, and returns an error exactly when the spawn itself failed — so a
failing (non-zero-exit) copy is invisible to the caller. -/
theorem claim_C10 (host : Host) (machine src dst : String) :
    (machinectl_copy_to host machine src dst = .ok ()
      ↔ host.copyTo machine src dst ≠ .spawnFailure)
    ∧ (machinectl_copy_to host machine src dst
         = .error (.commandSpawnFailed "machinectl copy-to")
      ↔ host.copyTo machine src dst = .spawnFailure) := by
  unfold machinectl_copy_to
  cases hc : host.copyTo machine src dst <;> simp

/-- Claim C10 witness: on a host whose copy command exits with code 7,
machinectl_copy_to still reports success. -/
theorem claim_C10_witness : machinectl_copy_to hostC10 "m" "/src" "/dst" = .ok () :=
  (claim_C10 hostC10 "m" "/src" "/dst").1.mpr (by decide)

/-- Claim C9 (confirmed): for a request naming an unknown realm, Start,
Stop, Terminal and Run return the explicit `Cannot find realm` method
fault, SetCurrent returns the plain empty reply and leaves the manager
state unchanged, and GetCurrent returns the empty string when no realm
is current. -/
theorem claim_C9 (st : ManagerState) (name : String) (args : List String)
    (h : manager_realm_by_name st name = none) :
    do_start st name = .error ⟨"Cannot find realm " ++ name⟩
    ∧ do_stop st name = .error ⟨"Cannot find realm " ++ name⟩
    ∧ do_terminal st name = .error ⟨"Cannot find realm " ++ name⟩
    ∧ do_run st name args = .error ⟨"Cannot find realm " ++ name⟩
    ∧ do_set_current st name = (Reply.empty, st)
    ∧ (st.current = none → do_get_current st = Reply.str "") := by
  have ht : treedata_realm_by_name st name = .error ⟨"Cannot find realm " ++ name⟩ := by
    unfold treedata_realm_by_name
    rw [h]
  refine ⟨?_, ?_, ?_, ?_, ?_, ?_⟩
  · simp [do_start, ht]
  · simp [do_stop, ht]
  · simp [do_terminal, ht]
  · simp [do_run, ht]
  · simp [do_set_current, h]
  · intro hc
    simp [do_get_current, hc]

/-- Claim C9 witness: on the empty manager state, Start on the unknown
realm `work` faults, SetCurrent on it is an empty-reply no-op, and
GetCurrent returns the empty string. -/
theorem claim_C9_witness :
    do_start stEmpty "work" = .error ⟨"Cannot find realm work"⟩
    ∧ do_set_current stEmpty "work" = (Reply.empty, stEmpty)
    ∧ do_get_current stEmpty = Reply.str "" := by
  have h := claim_C9 stEmpty "work" [] (by decide)
  exact ⟨h.1, h.2.2.2.2.1, h.2.2.2.2.2 rfl⟩

/-- Claim C3 (confirmed): when writing the launch configuration fails —
which covers both network-address allocation failures (raised inside
container-descriptor generation, before any file write) and descriptor
write failures — start_realm returns that very error, and the attempted
command list is empty: the supervisor start command is never invoked, no
ephemeral-home setup runs, and no process is spawned. -/
theorem claim_C3 (host : Host) (nc : NetworkConfig) (realm : Realm) (rootfs : String) (e : Err)
    (hw : write_launch_config_files host (RealmLauncher.new realm) rootfs nc = .error e) :
    start_realm host nc realm rootfs = (.error e, []) := by
  unfold start_realm
  simp [hw]

/-- Claim C3 witness: starting realm `d` (networked, zone `z`) against an
allocator with no zones aborts with ZoneUnknown and spawns nothing. -/
theorem claim_C3_witness : start_realm quietHost ncE realmC3 "/r" = (.error .zoneUnknown, []) :=
  claim_C3 quietHost ncE realmC3 "/r" .zoneUnknown (by decide)

/-- Claim C1 counterexample: on host `hostE` the supervisor start command
succeeds (exit 0, reported as ok true), yet start_realm of the
ephemeral-home realm `a` returns an error, because the global-skeleton
copy sub-step of setup_ephemeral_home fails (machinectl cannot be
spawned) and start_realm propagates that error with `?`. This refutes
the claim that start_realm returns success whenever the supervisor start
itself succeeded. -/
theorem claim_C1_counterexample :
    run_systemctl hostE "start" "realm-a.service" = .ok true
    ∧ realmE.config.ephemeralHome = true
    ∧ (start_realm hostE ncE realmE "/r").1
        = .error (.commandSpawnFailed "machinectl copy-to") := by
  decide

/-- Claim C1 as amended: ephemeral-home setup failures are fatal rather
than non-fatal — whenever launch-config writing succeeds and the
supervisor start command runs (any exit code), a failing
setup_ephemeral_home makes start_realm return that failure, even though
the supervisor start itself succeeded. (The failures setup_ephemeral_home
can produce are canonicalize errors and spawn failures of the copy/bind
utility; a copy command that runs but exits non-zero is not a failure,
see claim C10.) -/
theorem claim_C1_amended (host : Host) (nc : NetworkConfig) (realm : Realm) (rootfs : String)
    (code : Nat) (e : Err)
    (hw : isOkE (write_launch_config_files host (RealmLauncher.new realm) rootfs nc) = true)
    (hs : host.systemctl "start" ("realm-" ++ realm.name ++ ".service") = .exited code)
    (heph : realm.config.ephemeralHome = true)
    (hsetup : (setup_ephemeral_home host realm).1 = .error e) :
    (start_realm host nc realm rootfs).1 = .error e := by
  unfold start_realm
  cases hwr : write_launch_config_files host (RealmLauncher.new realm) rootfs nc with
  | error e2 => rw [hwr] at hw; simp [isOkE] at hw
  | ok tup =>
    obtain ⟨l, ns, sv, nc2⟩ := tup
    have hl : l = probeDevices (RealmLauncher.new realm) host := write_ok_launcher hwr
    have hsvc : l.realm_service_name = "realm-" ++ realm.name ++ ".service" := by
      calc l.realm_service_name = l.service := rfl
        _ = (probeDevices (RealmLauncher.new realm) host).service := by rw [hl]
        _ = (RealmLauncher.new realm).service := probeDevices_service _ _
        _ = "realm-" ++ realm.name ++ ".service" := rfl
    simp [hwr, hsvc, run_systemctl, hs, andThen, Except.map, heph, hsetup]

/-- Claim C1 witness for the amended statement, at the counterexample
input. -/
theorem claim_C1_witness :
    (start_realm hostE ncE realmE "/r").1 = .error (.commandSpawnFailed "machinectl copy-to") :=
  claim_C1_amended hostE ncE realmE "/r" 0 (.commandSpawnFailed "machinectl copy-to")
    (by decide) (by decide) (by decide) (by decide)

/-- Claim C2 counterexample: on host `hostC2` the start command runs and
exits with code 1 (non-zero), yet run_systemctl reports `ok false`
rather than an error, and start_realm of realm `b` succeeds — refuting
the claim that a non-zero exit produces a failure and makes start_realm
fail. -/
theorem claim_C2_counterexample :
    hostC2.systemctl "start" "realm-b.service" = .exited 1
    ∧ run_systemctl hostC2 "start" "realm-b.service" = .ok false
    ∧ (start_realm hostC2 ncE realmC2 "/r").1 = .ok () := by
  decide

/-- Claim C2 as amended: the start and stop operations return an error
exactly when the service-manager command cannot be spawned; when the
command runs, its exit status is only reflected in the returned boolean
(`ok (code = 0)`), and start_realm discards that boolean, so a non-zero
exit of the start command does not make start_realm fail. -/
theorem claim_C2_amended (host : Host) (op name : String) (nc : NetworkConfig) (realm : Realm)
    (rootfs : String) (code : Nat) :
    ((∃ e, run_systemctl host op name = .error e)
      ↔ host.systemctl op name = .spawnFailure)
    ∧ (host.systemctl op name = .exited code → run_systemctl host op name = .ok (code == 0))
    ∧ (isOkE (write_launch_config_files host (RealmLauncher.new realm) rootfs nc) = true →
       host.systemctl "start" ("realm-" ++ realm.name ++ ".service") = .exited code →
       realm.config.ephemeralHome = false →
       (start_realm host nc realm rootfs).1 = .ok ()) := by
  refine ⟨?_, ?_, ?_⟩
  · unfold run_systemctl
    cases hc : host.systemctl op name <;> simp
  · intro hs
    simp [run_systemctl, hs]
  · intro hw hs heph
    unfold start_realm
    cases hwr : write_launch_config_files host (RealmLauncher.new realm) rootfs nc with
    | error e2 => rw [hwr] at hw; simp [isOkE] at hw
    | ok tup =>
      obtain ⟨l, ns, sv, nc2⟩ := tup
      have hl : l = probeDevices (RealmLauncher.new realm) host := write_ok_launcher hwr
      have hsvc : l.realm_service_name = "realm-" ++ realm.name ++ ".service" := by
        calc l.realm_service_name = l.service := rfl
          _ = (probeDevices (RealmLauncher.new realm) host).service := by rw [hl]
          _ = (RealmLauncher.new realm).service := probeDevices_service _ _
          _ = "realm-" ++ realm.name ++ ".service" := rfl
      simp [hwr, hsvc, run_systemctl, hs, andThen, Except.map, heph]

/-- Claim C2 witness for the amended statement: exit code 1 yields
`ok false` from run_systemctl and a successful start_realm. -/
theorem claim_C2_amended_witness :
    run_systemctl hostC2 "start" "realm-b.service" = .ok false
    ∧ (start_realm hostC2 ncE realmC2 "/r").1 = .ok () := by
  refine ⟨?_, ?_⟩
  · exact (claim_C2_amended hostC2 "start" "realm-b.service" ncE realmC2 "/r" 1).2.1 (by decide)
  · exact (claim_C2_amended hostC2 "start" "realm-b.service" ncE realmC2 "/r" 1).2.2
      (by decide) (by decide) (by decide)

lemma netns_path_ne_empty (t : String) : "--network-namespace-path=/run/netns/" ++ t ≠ "" := by
  cases t with
  | mk d =>
    intro h
    have hd : ("--network-namespace-path=/run/netns/").data ++ d = [] := congrArg String.data h
    simp at hd

/-- Claim C4 (confirmed, reading the three cases in the spec's order):
the container descriptor's network section is the pair of IFCONFIG
environment lines for the allocated address and gateway plus the managed
zone directive when `network` is true and no netns is set; the
private-network directive whenever `network` is false; and empty when a
netns is set with `network` true — while the service descriptor's
ExecStart carries the `--network-namespace-path` argument exactly when a
netns is set (the argument text is nonempty precisely then). -/
theorem claim_C4 (l : RealmLauncher) (nc : NetworkConfig) :
    (l.realm.config.network = true → l.realm.config.netns = none →
      ∀ lines nc2, generate_network_config l nc = .ok (lines, nc2) →
        ∃ (ip gw : Nat), lines =
          ["Environment=IFCONFIG_IP=" ++ toString ip,
           "Environment=IFCONFIG_GW=" ++ toString gw, "[Network]", "Zone=clear"])
    ∧ (l.realm.config.network = false →
        generate_network_config l nc = .ok (["[Network]", "Private=true"], nc))
    ∧ (∀ n, l.realm.config.netns = some n → l.realm.config.network = true →
        generate_network_config l nc = .ok ([], nc))
    ∧ (netns_arg l.realm.config = "" ↔ l.realm.config.netns = none)
    ∧ (∀ rootfs, generate_service_file l rootfs =
        service_template_fill l.realm.name rootfs (netns_arg l.realm.config)
          (writeLines (device_allow_lines l))) := by
  refine ⟨?_, ?_, ?_, ?_, ?_⟩
  · intro hnet hns lines nc2 h
    have hns2 : l.realm.config.has_netns = false := by
      simp [RealmConfig.has_netns, hns]
    unfold generate_network_config at h
    rw [hnet, hns2] at h
    simp only [Bool.false_eq_true, if_false, if_true] at h
    split at h
    · exact absurd h (by simp)
    next addr ncm hres =>
      split at h
      · exact absurd h (by simp)
      next gw hgw =>
        injection h with hpair
        injection hpair with hlines hnc
        exact ⟨addr, gw, hlines.symm⟩
  · intro hnet
    unfold generate_network_config
    rw [hnet]
    simp
  · intro n hns hnet
    have hns2 : l.realm.config.has_netns = true := by
      simp [RealmConfig.has_netns, hns]
    unfold generate_network_config
    rw [hnet, hns2]
    simp
  · cases hn : l.realm.config.netns with
    | none => simp [netns_arg, hn]
    | some n =>
      simp only [netns_arg, hn]
      constructor
      · intro h
        exact absurd h (netns_path_ne_empty n)
      · intro h
        exact absurd h (by simp)
  · intro rootfs
    rfl

/-- Claim C4 witness: with `network = false` (realm `b`), the generated
network section is exactly the private-network directive. -/
theorem claim_C4_witness :
    generate_network_config (RealmLauncher.new realmC2) ncE
      = .ok (["[Network]", "Private=true"], ncE) :=
  (claim_C4 (RealmLauncher.new realmC2) ncE).2.1 rfl

/-- Claim C6 (confirmed): the extra-bind-mount section consists of the
base lines followed by exactly the newline-free read-write entries (in
their given order, rendered as Bind= lines) and then the newline-free
read-only entries (as BindReadOnly= lines); an entry containing a
newline is rejected and contributes no line at all. -/
theorem claim_C6 (l : RealmLauncher) (host : Host) :
    generate_extra_bind_mounts_lines l host
      = baseBindLines l host
        ++ (l.realm.config.extraBindmounts.filter is_valid_bind_item).map
            (fun b => "Bind=" ++ b)
        ++ (l.realm.config.extraBindmountsRo.filter is_valid_bind_item).map
            (fun b => "BindReadOnly=" ++ b)
    ∧ (∀ b, is_valid_bind_item b = false →
        ("Bind=" ++ b) ∉ emitBinds "Bind=" l.realm.config.extraBindmounts
        ∧ ("BindReadOnly=" ++ b) ∉ emitBinds "BindReadOnly="
            l.realm.config.extraBindmountsRo) := by
  refine ⟨?_, ?_⟩
  · unfold generate_extra_bind_mounts_lines
    rw [emitBinds_eq, emitBinds_eq]
  · intro b hb
    constructor
    · rw [emitBinds_eq, mem_map_prefix]
      intro hmem
      have := List.of_mem_filter hmem
      rw [hb] at this
      exact absurd this (by simp)
    · rw [emitBinds_eq, mem_map_prefix]
      intro hmem
      have := List.of_mem_filter hmem
      rw [hb] at this
      exact absurd this (by simp)

/-- Claim C6 witness: the newline-carrying entry of realm `g` is
rejected — no Bind line is derived from it. -/
theorem claim_C6_witness :
    ("Bind=" ++ "bad\nentry")
      ∉ emitBinds "Bind=" (RealmLauncher.new realmC6).realm.config.extraBindmounts :=
  ((claim_C6 (RealmLauncher.new realmC6) quietHost).2 "bad\nentry" (by decide)).1

/-- Claim C7 (confirmed): launch-config generation is deterministic —
a successful generation for a realm (fresh builder, as start_realm
creates one per start) leaves the allocator in a state from which
repeating the generation on the same host yields byte-identical
container and service descriptors, the same builder state, and the same
allocator state, by idempotence of the allocator. -/
theorem claim_C7 (host : Host) (realm : Realm) (rootfs : String) (nc : NetworkConfig)
    (l : RealmLauncher) (ns sv : String) (nc1 : NetworkConfig)
    (h : write_launch_config_files host (RealmLauncher.new realm) rootfs nc
          = .ok (l, ns, sv, nc1)) :
    write_launch_config_files host (RealmLauncher.new realm) rootfs nc1
      = .ok (l, ns, sv, nc1) := by
  simp only [write_launch_config_files] at h ⊢
  split at h
  · exact absurd h (by simp)
  next nsC nc2 hg =>
    split at h
    · exact absurd h (by simp)
    next u1 hw1 =>
      split at h
      · exact absurd h (by simp)
      next u2 hw2 =>
        injection h with hpair
        injection hpair with hl hpair2
        injection hpair2 with hns hpair3
        injection hpair3 with hsv hnc
        subst hl
        subst hns
        subst hsv
        subst hnc
        rw [nspawn_idem hg]

/-- Claim C7 witness: regenerating realm `c` launch configuration from
the post-allocation state ncZ1 reproduces the very same descriptors and
state. -/
theorem claim_C7_witness :
    write_launch_config_files quietHost (RealmLauncher.new realmC7) "/r" ncZ1
      = .ok (RealmLauncher.new realmC7, nsC7, svC7, ncZ1) :=
  claim_C7 quietHost realmC7 "/r" ncZ (RealmLauncher.new realmC7) nsC7 svC7 ncZ1 (by decide)

/-- Claim C8 counterexample: realm `e` grants kvm; a first generation on
`hostA` (where /dev/kvm exists) leaves the builder holding the device;
a second generation on the same builder against `quietHost` (where
/dev/kvm no longer exists) reproduces the stale descriptors with the
kvm bind and DeviceAllow lines, instead of the descriptors a fresh probe
of the new host produces — the builder retained its device-presence
results, refuting the claim. -/
theorem claim_C8_counterexample :
    write_launch_config_files hostA (RealmLauncher.new realmC8) "/r" ncE
      = .ok (lAfter, nsStale, svStale, ncE)
    ∧ write_launch_config_files quietHost lAfter "/r" ncE
      = .ok (lAfter, nsStale, svStale, ncE)
    ∧ write_launch_config_files quietHost (RealmLauncher.new realmC8) "/r" ncE
      = .ok (RealmLauncher.new realmC8, nsFresh, svFresh, ncE)
    ∧ nsStale ≠ nsFresh ∧ svStale ≠ svFresh := by
  decide

/-- Claim C8 as amended: the builder re-probes device presence only when
its stored device list is empty — a successful generation leaves the
builder holding `add_devices` of the host at call time when it started
empty, and the unchanged stale list otherwise. Since start_realm builds
a fresh (empty) launcher on every start attempt, each start reflects the
availability at that attempt, but a second invocation on the same
builder whose first probe found a device reuses the stale results. -/
theorem claim_C8_amended (host : Host) (l : RealmLauncher) (rootfs : String) (nc : NetworkConfig)
    (l2 : RealmLauncher) (ns sv : String) (nc2 : NetworkConfig)
    (h : write_launch_config_files host l rootfs nc = .ok (l2, ns, sv, nc2)) :
    (l.devices = [] → l2 = l.add_devices host) ∧ (l.devices ≠ [] → l2 = l) := by
  have hp := write_ok_launcher h
  constructor
  · intro he
    rw [hp]
    unfold probeDevices
    rw [he]
    simp
  · intro he
    rw [hp]
    unfold probeDevices
    rw [if_neg (by simpa [List.isEmpty_iff] using he)]

/-- Claim C8 witness for the amended statement: the first generation for
realm `e` on hostA started from an empty device list, so the resulting
builder state is exactly `add_devices` of hostA. -/
theorem claim_C8_amended_witness :
    lAfter = (RealmLauncher.new realmC8).add_devices hostA :=
  (claim_C8_amended hostA (RealmLauncher.new realmC8) "/r" ncE lAfter nsStale svStale ncE
    (by decide)).1 rfl

lemma gen_net_realm_congr {l1 l2 : RealmLauncher} (h : l1.realm = l2.realm)
    (nc : NetworkConfig) : generate_network_config l1 nc = generate_network_config l2 nc := by
  unfold generate_network_config
  rw [h]

lemma nspawn_path_realm_congr {l1 l2 : RealmLauncher} (h : l1.realm = l2.realm) :
    realm_nspawn_path l1 = realm_nspawn_path l2 := by
  unfold realm_nspawn_path
  rw [h]

lemma service_path_service_congr {l1 l2 : RealmLauncher} (h : l1.service = l2.service) :
    realm_service_path l1 = realm_service_path l2 := by
  unfold realm_service_path RealmLauncher.realm_service_name
  rw [h]

lemma errOf_write_launch_writeOk_congr (host h2 : Host) (l : RealmLauncher) (rootfs : String)
    (nc : NetworkConfig) (hwr : ∀ p, host.writeOk p = h2.writeOk p) :
    errOf (write_launch_config_files host l rootfs nc)
      = errOf (write_launch_config_files h2 l rootfs nc) := by
  have hre : (probeDevices l host).realm = (probeDevices l h2).realm := by
    rw [probeDevices_realm, probeDevices_realm]
  have hse : (probeDevices l host).service = (probeDevices l h2).service := by
    rw [probeDevices_service, probeDevices_service]
  have hnet := gen_net_realm_congr hre nc
  have hnp := nspawn_path_realm_congr hre
  have hsp := service_path_service_congr hse
  simp only [write_launch_config_files, generate_nspawn_file]
  cases hg : generate_network_config (probeDevices l host) nc with
  | error e =>
    rw [hnet] at hg
    simp [hg, ← hnet, errOf]
  | ok pair =>
    obtain ⟨lines, nc2⟩ := pair
    have hg2 : generate_network_config (probeDevices l h2) nc = .ok (lines, nc2) := by
      rw [← hnet]
      exact hg
    have hg1 : generate_network_config (probeDevices l host) nc = .ok (lines, nc2) := hg
    simp only [hg1, hg2]
    unfold write_launch_config_file
    rw [← hnp, ← hwr (realm_nspawn_path (probeDevices l host))]
    cases hb1 : host.writeOk (realm_nspawn_path (probeDevices l host)) with
    | false => simp [errOf]
    | true =>
      simp only [if_true]
      rw [← hsp, ← hwr (realm_service_path (probeDevices l host))]
      cases hb2 : host.writeOk (realm_service_path (probeDevices l host)) with
      | false => simp [errOf]
      | true => simp [errOf]

/-- Claim C5 (confirmed): a device is in the probed device list — and
hence gets its Bind line in the container descriptor's device section
and its DeviceAllow line in the service descriptor — if and only if the
config grants it (kvm for /dev/kvm, gpu for the render node, gpu with
gpu_card0 for the card node) and the device node exists on the host at
build time; and device availability never affects whether generation
succeeds: the error component of launch-config generation is unchanged
across hosts that agree on write outcomes, whatever paths exist. -/
theorem claim_C5 (realm : Realm) (host h2 : Host) :
    (∀ dev, dev ∈ ((RealmLauncher.new realm).add_devices host).devices ↔
      (spec_device_granted realm.config dev ∧ host.pathExists dev = true))
    ∧ (∀ dev, ("DeviceAllow=" ++ dev)
          ∈ device_allow_lines ((RealmLauncher.new realm).add_devices host) ↔
        dev ∈ ((RealmLauncher.new realm).add_devices host).devices)
    ∧ (∀ dev, ("Bind=" ++ dev)
          ∈ ((RealmLauncher.new realm).add_devices host).devices.map (fun d => "Bind=" ++ d) ↔
        dev ∈ ((RealmLauncher.new realm).add_devices host).devices)
    ∧ ((∀ p, host.writeOk p = h2.writeOk p) →
       ∀ l rootfs nc, errOf (write_launch_config_files host l rootfs nc)
         = errOf (write_launch_config_files h2 l rootfs nc)) := by
  refine ⟨mem_add_devices_new realm host, ?_, ?_, ?_⟩
  · intro dev
    exact mem_map_prefix "DeviceAllow=" dev _
  · intro dev
    exact mem_map_prefix "Bind=" dev _
  · intro hwr l rootfs nc
    exact errOf_write_launch_writeOk_congr host h2 l rootfs nc hwr

/-- Claim C5 witness: realm `f` grants kvm and gpu; on a host where only
/dev/kvm exists, the kvm device is probed and the absent render node is
silently skipped. -/
theorem claim_C5_witness :
    "/dev/kvm" ∈ ((RealmLauncher.new realmC5).add_devices hostA).devices
    ∧ "/dev/dri/renderD128" ∉ ((RealmLauncher.new realmC5).add_devices hostA).devices
    ∧ ("DeviceAllow=" ++ "/dev/kvm")
        ∈ device_allow_lines ((RealmLauncher.new realmC5).add_devices hostA)
    ∧ errOf (write_launch_config_files hostA (RealmLauncher.new realmC5) "/r" ncE)
        = errOf (write_launch_config_files quietHost (RealmLauncher.new realmC5) "/r" ncE) := by
  refine ⟨?_, ?_, ?_, ?_⟩
  · exact ((claim_C5 realmC5 hostA quietHost).1 "/dev/kvm").mpr (by decide)
  · intro hmem
    have := ((claim_C5 realmC5 hostA quietHost).1 "/dev/dri/renderD128").mp hmem
    exact absurd this.2 (by decide)
  · exact ((claim_C5 realmC5 hostA quietHost).2.1 "/dev/kvm").mpr
      (((claim_C5 realmC5 hostA quietHost).1 "/dev/kvm").mpr (by decide))
  · exact (claim_C5 realmC5 hostA quietHost).2.2.2 (fun _ => rfl)
      (RealmLauncher.new realmC5) "/r" ncE

end Citadel
